import Mathlib

/-!
Verification development for the Djournal daily-state lifecycle and
snapshot/export engine (in-memory multi-user server revision).

The JavaScript server keeps, per user: an active `DayState`, a list of
custom-field templates, persistent tracker storage, a map of historical
snapshots keyed by date, and snapshot-retention settings.  We embed that
per-user state as `UserWorld` and translate the relevant server functions
and route handlers as pure functions on it.  Wall-clock reads
(`new Date()`, `Date.now()`) are passed in as explicit parameters.

JavaScript strings are compared code-unit-lexicographically; for the
basic-multilingual-plane strings involved (ISO dates) this coincides with
code-point order, which we implement directly on `List Char` so that all
comparisons are kernel-reducible.
-/

set_option maxRecDepth 4000

namespace Djournal

/-- Code-unit lexicographic "less than" on character lists, the order JS
uses for `a < b` on strings (restricted to BMP code points). -/
def charListLtb : List Char → List Char → Bool
  | _, [] => false
  | [], _ :: _ => true
  | a :: as, b :: bs =>
    if a.toNat < b.toNat then true
    else if b.toNat < a.toNat then false
    else charListLtb as bs

/-- JS string comparison `a < b`. -/
def jsLtb (a b : String) : Bool := charListLtb a.data b.data

/-- JS string comparison `a <= b` (equivalently `!(b < a)`). -/
def jsLeb (a b : String) : Bool := !(jsLtb b a)

/-- `jsLeb` as a proposition, used as the sorting relation. -/
def strLe (a b : String) : Prop := jsLeb a b = true

instance : DecidableRel strLe := fun _ _ => instDecidableEqBool _ _

/-- `Array.prototype.sort()` without comparator on date strings: ascending
code-unit lexicographic order. -/
def sortAsc (l : List String) : List String := List.insertionSort strLe l

/-- `Array.prototype.sort().reverse()`: descending order, as the server
computes `remainingDates`. -/
def sortDesc (l : List String) : List String := (sortAsc l).reverse

/-- Models `String(value).replace(/"/g, '\\"')`: every double quote in the
string is replaced by a backslash-quote pair. -/
def escapeQuotes (s : String) : String :=
  String.mk (s.data.foldr (fun c acc => if c = '"' then '\\' :: '"' :: acc else c :: acc) [])

/-- JS truthiness of an optional string (`undefined`/`null`/`''` are falsy). -/
def jsTruthyStr : Option String → Bool
  | none => false
  | some s => !(decide (s = ""))

/-- JS truthiness of an optional number (`null` and `0` are falsy). -/
def jsTruthyInt : Option Int → Bool
  | none => false
  | some v => !(decide (v = 0))

/-- `Array.prototype.join(sep)`. -/
def joinWith (sep : String) : List String → String
  | [] => ""
  | [x] => x
  | x :: y :: xs => x ++ sep ++ joinWith sep (y :: xs)

/-! ## Data model (from the in-memory state shapes in the server source) -/

/-- A time-since tracker: `{ id, name, date }`. -/
structure TimeSinceTracker where
  id : Nat
  name : String
  date : String
deriving DecidableEq

/-- A duration tracker:
`{ id, name, type, value, isRunning, startTime, elapsedMs }`. -/
structure DurationTracker where
  id : Nat
  name : String
  type : String
  value : Int
  isRunning : Bool
  startTime : Option Int
  elapsedMs : Int
deriving DecidableEq

/-- A custom counter: `{ id, name, value }`. -/
structure CustomCounter where
  id : Nat
  name : String
  value : Int
deriving DecidableEq

/-- A template-based or one-off daily field: `{ id, key, value }`. -/
structure CustomField where
  id : Nat
  key : String
  value : String
deriving DecidableEq

/-- A daily task: `{ id, text, completed }`. -/
structure DailyTask where
  id : Nat
  text : String
  completed : Bool
deriving DecidableEq

/-- An activity entry: `{ id, timestamp, text, image }`. -/
structure JournalEntry where
  id : Nat
  timestamp : String
  text : String
  image : Option String
deriving DecidableEq

/-- The per-user daily state object created by `getUserState`. -/
structure DayState where
  date : String
  previousBedtime : String
  wakeTime : String
  customFields : List CustomField
  dailyCustomFields : List CustomField
  dailyTasks : List DailyTask
  customCounters : List CustomCounter
  entries : List JournalEntry
  timeSinceTrackers : List TimeSinceTracker
  durationTrackers : List DurationTracker
deriving DecidableEq

/-- A custom-field template: `{ id, key }` in `customFieldTemplates[userId]`. -/
structure FieldTemplate where
  id : Nat
  key : String
deriving DecidableEq

/-- `persistentTrackers[userId]`. -/
structure PersistentTrackers where
  timeSinceTrackers : List TimeSinceTracker
  durationTrackers : List DurationTracker
  customCounters : List CustomCounter
deriving DecidableEq

/-- `snapshotSettings[userId]`: `{ maxDays, maxCount }` (0 disables the
corresponding filter).  Values come through `parseInt`, hence `Int`. -/
structure SnapshotSettings where
  maxDays : Int
  maxCount : Int
deriving DecidableEq

/-- All server-side state for one user.  `historicalData` models the JS
object `historicalData[userId]` as an insertion-ordered association list
(JS objects preserve insertion order for non-index string keys).
`nextId` models the global id counter. -/
structure UserWorld where
  state : DayState
  customFieldTemplates : List FieldTemplate
  persistentTrackers : PersistentTrackers
  historicalData : List (String × DayState)
  snapshotSettings : SnapshotSettings
  nextId : Nat
deriving DecidableEq

/-! ## Snapshot store primitives -/

/-- `historicalData[userId][date] = value`: replaces in place if the key
exists (JS objects keep the original key position), appends otherwise. -/
def insertSnapshot : List (String × DayState) → String → DayState → List (String × DayState)
  | [], d, s => [(d, s)]
  | (k, v) :: rest, d, s =>
    if k = d then (d, s) :: rest else (k, v) :: insertSnapshot rest d s

/-- `historicalData[userId][date]` read access. -/
def lookupSnapshot : List (String × DayState) → String → Option DayState
  | [], _ => none
  | (k, v) :: rest, d => if k = d then some v else lookupSnapshot rest d

/-- `cleanupOldSnapshots(userId)`: the age filter deletes every snapshot
whose date is lexicographically below `cutoffStr` (the server computes
`cutoffStr` from the wall clock and `maxDays`; we take it as a parameter),
then the count filter deletes everything beyond position `maxCount` of the
descending-sorted remaining dates.  Deleting a set of keys from a JS
object is a filter on the association list. -/
def cleanupOldSnapshots (w : UserWorld) (cutoffStr : String) : UserWorld :=
  let settings := w.snapshotSettings
  let h0 := w.historicalData
  let h1 :=
    if 0 < settings.maxDays then
      h0.filter (fun p => !(jsLtb p.1 cutoffStr))
    else h0
  let remainingDates := sortDesc (h1.map Prod.fst)
  let h2 :=
    if 0 < settings.maxCount ∧ settings.maxCount < (remainingDates.length : Int) then
      let toDelete := remainingDates.drop settings.maxCount.toNat
      h1.filter (fun p => !(decide (p.1 ∈ toDelete)))
    else h1
  { w with historicalData := h2 }

/-- `saveDailySnapshot(userId)`: deep-clones the current state into the
history under its own date (`JSON.parse(JSON.stringify(state))`, which in
this value-level embedding is the state value itself), then runs retention
cleanup. -/
def saveDailySnapshot (w : UserWorld) (cutoffStr : String) : UserWorld :=
  cleanupOldSnapshots
    { w with historicalData := insertSnapshot w.historicalData w.state.date w.state }
    cutoffStr

/-! ## Daily state manager -/

/-- `loadTrackersIntoState(userId)`: copies time-since and duration
trackers from persistent storage as-is and regenerates custom counters
with value 0. -/
def loadTrackersIntoState (pt : PersistentTrackers) (s : DayState) : DayState :=
  { s with
    timeSinceTrackers := pt.timeSinceTrackers
    durationTrackers := pt.durationTrackers
    customCounters := pt.customCounters.map (fun c => { c with value := 0 }) }

/-- `saveTrackersToPersistent(userId)`: write-through copy of the state's
trackers (including current counter values) into persistent storage. -/
def saveTrackersToPersistent (w : UserWorld) : UserWorld :=
  { w with persistentTrackers :=
      { timeSinceTrackers := w.state.timeSinceTrackers
        durationTrackers := w.state.durationTrackers
        customCounters := w.state.customCounters } }

/-- `checkDateTransition(userId)`: when the stored date differs from the
current calendar date (`currentDate`, a wall-clock read), archive the old
state, reset the daily fields, regenerate template fields from the user's
templates, and reload trackers from persistent storage.  `cutoffStr` is
the retention-age cutoff date used by the cleanup pass. -/
def checkDateTransition (w : UserWorld) (currentDate cutoffStr : String) : UserWorld :=
  if w.state.date ≠ currentDate then
    let w1 := saveDailySnapshot w cutoffStr
    let s1 : DayState :=
      { date := currentDate
        previousBedtime := ""
        wakeTime := ""
        customFields := w1.customFieldTemplates.map (fun t => { id := t.id, key := t.key, value := "" })
        dailyCustomFields := []
        dailyTasks := []
        entries := []
        customCounters := w1.state.customCounters
        timeSinceTrackers := w1.state.timeSinceTrackers
        durationTrackers := w1.state.durationTrackers }
    { w1 with state := loadTrackersIntoState w1.persistentTrackers s1 }
  else w

/-! ## Mutating route handlers

Each handler returns the updated per-user world together with the HTTP
response payload: `.ok state` for the 200 response carrying the full day
state, `.error e` for an error status.  The tracker/counter handlers
mutate the first array element whose `id` matches (JS `Array.find` then
in-place mutation) and then write trackers through to persistent
storage. -/

/-- Error taxonomy of the handlers relevant here. -/
inductive ApiError
  | notFound
  | payloadTooLarge
  | badRequest
deriving DecidableEq

/-- `Array.find` followed by in-place mutation of the found element:
apply `f` to the first list element satisfying `p`. -/
def jsMutateFirst {α : Type} (p : α → Bool) (f : α → α) : List α → List α
  | [] => []
  | x :: xs => if p x then f x :: xs else x :: jsMutateFirst p f xs

/-- `POST /api/trackers/timer/start/:id`. -/
def startTimer (w : UserWorld) (id : Nat) (nowMs : Int) : UserWorld × Except ApiError DayState :=
  let st := w.state
  let ts' := jsMutateFirst (fun t => decide (t.id = id))
    (fun t =>
      if t.type = "timer" then { t with isRunning := true, startTime := some nowMs }
      else t)
    st.durationTrackers
  let st' := { st with durationTrackers := ts' }
  let w' := saveTrackersToPersistent { w with state := st' }
  (w', .ok st')

/-- `POST /api/trackers/timer/stop/:id`.  `Date.now() - tracker.startTime`
coerces a `null` start time to 0, hence `getD 0`. -/
def stopTimer (w : UserWorld) (id : Nat) (nowMs : Int) : UserWorld × Except ApiError DayState :=
  let st := w.state
  let ts' := jsMutateFirst (fun t => decide (t.id = id))
    (fun t =>
      if t.type = "timer" ∧ t.isRunning = true then
        let elapsedMs' := t.elapsedMs + (nowMs - t.startTime.getD 0)
        { t with elapsedMs := elapsedMs', value := elapsedMs'.fdiv 1000,
                 isRunning := false, startTime := none }
      else t)
    st.durationTrackers
  let st' := { st with durationTrackers := ts' }
  let w' := saveTrackersToPersistent { w with state := st' }
  (w', .ok st')

/-- `POST /api/trackers/timer/reset/:id`. -/
def resetTimer (w : UserWorld) (id : Nat) : UserWorld × Except ApiError DayState :=
  let st := w.state
  let ts' := jsMutateFirst (fun t => decide (t.id = id))
    (fun t =>
      if t.type = "timer" then
        { t with value := 0, isRunning := false, startTime := none, elapsedMs := 0 }
      else t)
    st.durationTrackers
  let st' := { st with durationTrackers := ts' }
  let w' := saveTrackersToPersistent { w with state := st' }
  (w', .ok st')

/-- `POST /api/custom-counters/:id/increment`. -/
def incrementCounter (w : UserWorld) (id : Nat) : UserWorld × Except ApiError DayState :=
  let st := w.state
  let cs' := jsMutateFirst (fun c => decide (c.id = id))
    (fun c => { c with value := c.value + 1 })
    st.customCounters
  let st' := { st with customCounters := cs' }
  let w' := saveTrackersToPersistent { w with state := st' }
  (w', .ok st')

/-- `POST /api/custom-counters/:id/decrement` (clamped at 0). -/
def decrementCounter (w : UserWorld) (id : Nat) : UserWorld × Except ApiError DayState :=
  let st := w.state
  let cs' := jsMutateFirst (fun c => decide (c.id = id))
    (fun c => if 0 < c.value then { c with value := c.value - 1 } else c)
    st.customCounters
  let st' := { st with customCounters := cs' }
  let w' := saveTrackersToPersistent { w with state := st' }
  (w', .ok st')

/-- `PUT /api/custom-counters/:id/set`: applies only when the supplied
value is a non-negative number (the `typeof value === 'number'` check
always holds in this embedding, where the body value is an `Int`). -/
def setCounterValue (w : UserWorld) (id : Nat) (v : Int) : UserWorld × Except ApiError DayState :=
  let st := w.state
  let cs' := jsMutateFirst (fun c => decide (c.id = id))
    (fun c => if 0 ≤ v then { c with value := v } else c)
    st.customCounters
  let st' := { st with customCounters := cs' }
  let w' := saveTrackersToPersistent { w with state := st' }
  (w', .ok st')

/-- `POST /api/daily`: partial sleep-times update (only fields present in
the request body change). -/
def updateDaily (w : UserWorld) (previousBedtime wakeTime : Option String) :
    UserWorld × Except ApiError DayState :=
  let st := w.state
  let st' := { st with
    previousBedtime := previousBedtime.getD st.previousBedtime
    wakeTime := wakeTime.getD st.wakeTime }
  ({ w with state := st' }, .ok st')

/-- `POST /api/entry`: if an image is present (JS-truthy), reject when
`(image.length * 3) / 4 > 20 * 1024 * 1024`; the JS division is exact, so
the comparison is the integer comparison `3 * length > 4 * limit`.
Otherwise append the entry with the server-generated timestamp
(`new Date().toLocaleTimeString('en-US', { hour12: false })`, passed in
as `timestamp`) and the fresh id. -/
def addEntry (w : UserWorld) (text : String) (image : Option String) (timestamp : String) :
    UserWorld × Except ApiError DayState :=
  if jsTruthyStr image = true ∧ 4 * (20 * 1024 * 1024) < 3 * (image.getD "").length then
    (w, .error .payloadTooLarge)
  else
    let newEntry : JournalEntry :=
      { id := w.nextId
        timestamp := timestamp
        text := text
        image := if jsTruthyStr image then image else none }
    let st' := { w.state with entries := w.state.entries ++ [newEntry] }
    ({ w with state := st', nextId := w.nextId + 1 }, .ok st')

/-! ## Document renderer (structured text)

`calculateTimeSince` and running-timer display read the wall clock and
parse dates through the JS `Date` runtime; both are passed in through
`RenderEnv`.  The fractional JS constants `365.25*24*60 = 525960` and
`30.44*24*60 = 43833.6` are modelled exactly as rationals by scaling the
latter by 10. -/

/-- Wall-clock/date-runtime parameters of the renderer. -/
structure RenderEnv where
  nowMs : Int
  parseDateMs : String → Int

/-- The unit breakdown of `calculateTimeSince` (source lines 353-370):
successive floor divisions of the elapsed minutes by a 365.25-day year
(`365.25*24*60 = 525960`, exact in doubles) and a 30.44-day month, then
weeks, days, hours.  The program's month length is the IEEE-754 double
`30.44 * 24 * 60 = 43833.600000000006`, whose exact value is the dyadic
rational `1506111027727565 / 2^35`; the month lines below compute
`Math.floor(m1 / X)` and `Math.floor(months * X)` for that exact `X`.
For elapsed times below `2^53` ms this matches the double arithmetic:
the quotient `m1 / X` sits at least `(X - 43833.6)/X > 2^-53` in relative
distance below every integer it approaches from below (nearest integers
occur at multiples of 5 months), so rounding the division result never
crosses an integer, and `months * X` is never within rounding distance
below an integer, so both floors agree with the exact rational floors. -/
structure TimeSinceParts where
  years : Int
  months : Int
  weeks : Int
  days : Int
  hours : Int
  minutes : Int
deriving DecidableEq

/-- Breakdown computation of `calculateTimeSince`. -/
def timeSinceBreakdown (diffMinutes0 : Int) : TimeSinceParts :=
  let years := diffMinutes0.fdiv 525960
  let m1 := diffMinutes0 - years * 525960
  let months := (m1 * 34359738368).fdiv 1506111027727565
  let m2 := m1 - (months * 1506111027727565).fdiv 34359738368
  let weeks := m2.fdiv 10080
  let m3 := m2 - weeks * 10080
  let days := m3.fdiv 1440
  let m4 := m3 - days * 1440
  let hours := m4.fdiv 60
  let minutes := m4 - hours * 60
  { years := years, months := months, weeks := weeks, days := days,
    hours := hours, minutes := minutes }

/-- The `parts` assembly of `calculateTimeSince` (source lines 372-380):
push each positive unit largest-first; push minutes when positive or when
no other part was pushed; join with spaces. -/
def timeSincePartsJoin (b : TimeSinceParts) : String :=
  let p1 : List String := if 0 < b.years then [toString b.years ++ "y"] else []
  let p2 := if 0 < b.months then p1 ++ [toString b.months ++ "mo"] else p1
  let p3 := if 0 < b.weeks then p2 ++ [toString b.weeks ++ "w"] else p2
  let p4 := if 0 < b.days then p3 ++ [toString b.days ++ "d"] else p3
  let p5 := if 0 < b.hours then p4 ++ [toString b.hours ++ "h"] else p4
  let p6 := if 0 < b.minutes ∨ p5 = [] then p5 ++ [toString b.minutes ++ "m"] else p5
  joinWith " " p6

/-- `calculateTimeSince` on a precomputed whole-minute difference. -/
def timeSinceFromMinutes (diffMinutes0 : Int) : String :=
  timeSincePartsJoin (timeSinceBreakdown diffMinutes0)

/-- `calculateTimeSince(dateStr)` with the two `Date` values supplied as
millisecond timestamps: `diffMinutes = Math.floor((now - then) / 60000)`. -/
def calculateTimeSinceMs (thenMs nowMs : Int) : String :=
  timeSinceFromMinutes ((nowMs - thenMs).fdiv 60000)

/-- `calculateTimeSince(dateStr)` as called by the renderer. -/
def calculateTimeSince (env : RenderEnv) (dateStr : String) : String :=
  calculateTimeSinceMs (env.parseDateMs dateStr) env.nowMs

/-- `formatDuration(seconds)`: `{h}h {m}m {s}s` with zero leading units
omitted, always at least the seconds.  JS `%` is truncating remainder
(`tmod`), `Math.floor` of the quotient is `fdiv`. -/
def formatDuration (seconds : Int) : String :=
  let hours := seconds.fdiv 3600
  let minutes := (seconds.tmod 3600).fdiv 60
  let secs := seconds.tmod 60
  let p1 : List String := if 0 < hours then [toString hours ++ "h"] else []
  let p2 := if 0 < minutes then p1 ++ [toString minutes ++ "m"] else p1
  let p3 := if 0 < secs ∨ p2 = [] then p2 ++ [toString secs ++ "s"] else p2
  joinWith " " p3

/-- `getCurrentElapsedTime(tracker)`: live seconds of a running timer. -/
def getCurrentElapsedTime (env : RenderEnv) (t : DurationTracker) : Int :=
  if ¬ t.type = "timer" then t.value
  else
    if t.isRunning = true ∧ jsTruthyInt t.startTime = true then
      t.value + ((env.nowMs - t.startTime.getD 0).fdiv 1000)
    else t.value

/-- User-information block of `generateMarkdownWithYAML` (username is
JS-truthy when present and non-empty; the `date:` line follows outside). -/
def userInfoYaml (username : Option String) : String :=
  if jsTruthyStr username = true then
    "# User Information\nuser: \"" ++ username.getD "" ++ "\"\n"
  else ""

/-- Profile-fields block: each value is escaped. -/
def profileFieldsYaml (fields : List (String × String)) : String :=
  if fields.isEmpty = true then ""
  else
    "# Profile Fields\nprofile:\n" ++
    String.join (fields.map (fun kv => "  " ++ kv.1 ++ ": \"" ++ escapeQuotes kv.2 ++ "\"\n")) ++
    "\n"

/-- Sleep-metrics block (lines present only for truthy, i.e. non-empty,
values). -/
def sleepYaml (d : DayState) : String :=
  if ¬ d.previousBedtime = "" ∨ ¬ d.wakeTime = "" then
    "# Sleep Metrics\n" ++
    (if ¬ d.previousBedtime = "" then "bedtime: \"" ++ d.previousBedtime ++ "\"\n" else "") ++
    (if ¬ d.wakeTime = "" then "wake_time: \"" ++ d.wakeTime ++ "\"\n" else "") ++
    "\n"
  else ""

/-- Time-since-trackers block: names are escaped, dates are not. -/
def timeSinceYaml (env : RenderEnv) (ts : List TimeSinceTracker) : String :=
  if ts.isEmpty = true then ""
  else
    "# Time Since Trackers (persist across days)\ntime_since_trackers:\n" ++
    String.join (ts.map (fun t =>
      "  - name: \"" ++ escapeQuotes t.name ++ "\"\n" ++
      "    date: \"" ++ t.date ++ "\"\n" ++
      "    time_since: \"" ++ calculateTimeSince env t.date ++ "\"\n")) ++
    "\n"

/-- Duration-trackers block: names are escaped; timers additionally show a
formatted value and, when running with a truthy start time, the live
elapsed value. -/
def durationYaml (env : RenderEnv) (ts : List DurationTracker) : String :=
  if ts.isEmpty = true then ""
  else
    "# Duration Trackers (persist across days)\nduration_trackers:\n" ++
    String.join (ts.map (fun t =>
      "  - name: \"" ++ escapeQuotes t.name ++ "\"\n" ++
      "    type: \"" ++ t.type ++ "\"\n" ++
      "    value: " ++ toString t.value ++ "\n" ++
      (if t.type = "timer" then
        "    formatted: \"" ++ formatDuration t.value ++ "\"\n" ++
        (if t.isRunning = true ∧ jsTruthyInt t.startTime = true then
          "    is_running: true\n    current_time: \"" ++
            formatDuration (getCurrentElapsedTime env t) ++ "\"\n"
         else "    is_running: false\n")
       else if t.type = "counter" then
        "    formatted: \"" ++ toString t.value ++ " minutes\"\n"
       else ""))) ++
    "\n"

/-- Custom-counters block of `generateMarkdownWithYAML` (source lines
284-292).  Note: the source interpolates `c.name` verbatim, without the
`replace(/"/g, '\\"')` applied to every other quoted value. -/
def customCountersYaml (cs : List CustomCounter) : String :=
  if cs.isEmpty = true then ""
  else
    "# Custom Counters (persist but values reset daily)\ncustom_counters:\n" ++
    String.join (cs.map (fun c =>
      "  - name: \"" ++ c.name ++ "\"\n    value: " ++ toString c.value ++ "\n")) ++
    "\n"

/-- Template-fields block: only non-empty values, escaped. -/
def templateFieldsYaml (fs : List CustomField) : String :=
  if fs.isEmpty = true then ""
  else
    "# Template Fields (persist template, values reset daily)\ntemplate_fields:\n" ++
    String.join (fs.map (fun f =>
      if ¬ f.value = "" then "  " ++ f.key ++ ": \"" ++ escapeQuotes f.value ++ "\"\n" else "")) ++
    "\n"

/-- Daily-fields block: only non-empty values, escaped. -/
def dailyFieldsYaml (fs : List CustomField) : String :=
  if fs.isEmpty = true then ""
  else
    "# Daily Fields (do not persist)\ndaily_fields:\n" ++
    String.join (fs.map (fun f =>
      if ¬ f.value = "" then "  " ++ f.key ++ ": \"" ++ escapeQuotes f.value ++ "\"\n" else "")) ++
    "\n"

/-- Daily-tasks block: task texts are escaped. -/
def tasksYaml (ts : List DailyTask) : String :=
  if ts.isEmpty = true then ""
  else
    "# Daily Tasks\ntasks:\n" ++
    String.join (ts.map (fun t =>
      "  - text: \"" ++ escapeQuotes t.text ++ "\"\n    completed: " ++
        toString t.completed ++ "\n")) ++
    "\n"

/-- Markdown body: activity entries with optional embedded image. -/
def entriesMarkdown (es : List JournalEntry) : String :=
  "# Activity Entries\n\n" ++
  (if es.isEmpty = true then "_No entries today._\n"
   else
    String.join (es.map (fun e =>
      "## " ++ e.timestamp ++ "\n\n" ++ e.text ++ "\n\n" ++
      (if jsTruthyStr e.image = true then
        "![Entry Image](" ++ e.image.getD "" ++ ")\n\n"
       else ""))))

/-- `generateMarkdownWithYAML(dayData, username, userProfileFields)`. -/
def generateMarkdownWithYAML (env : RenderEnv) (dayData : DayState)
    (username : Option String) (userProfileFields : List (String × String)) : String :=
  "---\n" ++
  userInfoYaml username ++
  "date: \"" ++ dayData.date ++ "\"\n\n" ++
  profileFieldsYaml userProfileFields ++
  sleepYaml dayData ++
  timeSinceYaml env dayData.timeSinceTrackers ++
  durationYaml env dayData.durationTrackers ++
  customCountersYaml dayData.customCounters ++
  templateFieldsYaml dayData.customFields ++
  dailyFieldsYaml dayData.dailyCustomFields ++
  tasksYaml dayData.dailyTasks ++
  "---\n\n" ++
  entriesMarkdown dayData.entries

/-! ## Range export -/

/-- The date selection of both range-export handlers:
`Object.keys(userHistory).filter(date => date >= startDate && date <= endDate).sort()`. -/
def exportRangeDates (w : UserWorld) (startDate endDate : String) : List String :=
  sortAsc ((w.historicalData.map Prod.fst).filter
    (fun dt => jsLeb startDate dt && jsLeb dt endDate))

/-- The per-day concatenation of `POST /api/exports/download-range`: a
`\n---\n\n` separator between consecutive days, none after the last. -/
def joinDaysMarkdown : List String → String
  | [] => ""
  | [x] => x
  | x :: y :: xs => x ++ "\n---\n\n" ++ joinDaysMarkdown (y :: xs)

/-- `POST /api/exports/download-range` (after token verification): selects
the snapshots in range, 404s when none match, otherwise renders each day
and answers with the attachment filename and the combined markdown.  The
handler performs no state mutation, so the world is returned unchanged. -/
def downloadRange (env : RenderEnv) (w : UserWorld) (username : Option String)
    (userProfileFields : List (String × String)) (startDate endDate : String) :
    UserWorld × Except ApiError (String × String) :=
  let dates := exportRangeDates w startDate endDate
  if dates.isEmpty = true then (w, .error .notFound)
  else
    let markdown := joinDaysMarkdown (dates.map (fun dt =>
      match lookupSnapshot w.historicalData dt with
      | some dayData => generateMarkdownWithYAML env dayData username userProfileFields
      | none => ""))
    let filename :=
      if dates.length = 1 then startDate ++ ".md"
      else startDate ++ "_to_" ++ endDate ++ ".md"
    (w, .ok (filename, markdown))

/-- The date selection and attachment filename of
`POST /api/exports/download-range-pdf`; the PDF byte stream itself is out
of scope of this embedding. -/
def downloadRangePdfFilename (w : UserWorld) (startDate endDate : String) :
    Except ApiError String :=
  let dates := exportRangeDates w startDate endDate
  if dates.isEmpty = true then .error .notFound
  else
    .ok (if dates.length = 1 then startDate ++ ".pdf"
         else startDate ++ "_to_" ++ endDate ++ ".pdf")

/-! ## Spec-side formatting definition (for the refinement claim about
`calculateTimeSince`) and concrete example data -/

/-- The elapsed-time formatting rule as the spec states it: list the units
largest-first, keep exactly the positive ones, and additionally show
minutes whenever every larger unit is zero. -/
def timeSinceSpecJoin (b : TimeSinceParts) : String :=
  let larger := [(b.years, "y"), (b.months, "mo"), (b.weeks, "w"), (b.days, "d"), (b.hours, "h")]
  let shown := (larger.filter (fun u => decide (0 < u.1))).map (fun u => toString u.1 ++ u.2)
  let allParts :=
    if 0 < b.minutes ∨ (b.years = 0 ∧ b.months = 0 ∧ b.weeks = 0 ∧ b.days = 0 ∧ b.hours = 0) then
      shown ++ [toString b.minutes ++ "m"]
    else shown
  joinWith " " allParts

/-- Spec-side elapsed-time string on a whole-minute difference: the same
successive floor-division breakdown, formatted by the spec's rule. -/
def timeSinceSpecFromMinutes (m : Int) : String :=
  timeSinceSpecJoin (timeSinceBreakdown m)

/-- An empty day state for a given date. -/
def mkDay (d : String) : DayState :=
  { date := d, previousBedtime := "", wakeTime := "", customFields := [],
    dailyCustomFields := [], dailyTasks := [], customCounters := [], entries := [],
    timeSinceTrackers := [], durationTrackers := [] }

/-- A fixed render environment (frozen clock, trivial date runtime). -/
def env0 : RenderEnv := { nowMs := 0, parseDateMs := fun _ => 0 }

/-- Ten archived days 2024-01-01..2024-01-10 with unlimited age and a
five-snapshot count limit. -/
def exampleRetentionWorld : UserWorld :=
  { state := mkDay "2024-01-11"
    customFieldTemplates := []
    persistentTrackers := { timeSinceTrackers := [], durationTrackers := [], customCounters := [] }
    historicalData :=
      ["2024-01-01", "2024-01-02", "2024-01-03", "2024-01-04", "2024-01-05",
       "2024-01-06", "2024-01-07", "2024-01-08", "2024-01-09", "2024-01-10"].map
        (fun d => (d, mkDay d))
    snapshotSettings := { maxDays := 0, maxCount := 5 }
    nextId := 1 }

/-- Archived days 2024-01-05, 2024-01-07 and 2024-01-10. -/
def exampleRangeWorld : UserWorld :=
  { state := mkDay "2024-01-11"
    customFieldTemplates := []
    persistentTrackers := { timeSinceTrackers := [], durationTrackers := [], customCounters := [] }
    historicalData := [("2024-01-05", mkDay "2024-01-05"), ("2024-01-07", mkDay "2024-01-07"),
                       ("2024-01-10", mkDay "2024-01-10")]
    snapshotSettings := { maxDays := 30, maxCount := 100 }
    nextId := 1 }

/-- A single archived day 2024-01-07. -/
def exampleSingleSnapshotWorld : UserWorld :=
  { state := mkDay "2024-01-11"
    customFieldTemplates := []
    persistentTrackers := { timeSinceTrackers := [], durationTrackers := [], customCounters := [] }
    historicalData := [("2024-01-07", mkDay "2024-01-07")]
    snapshotSettings := { maxDays := 30, maxCount := 100 }
    nextId := 1 }

/-- A populated world on 2024-01-01, with the spec's example tracker data:
a stopped duration tracker with `elapsedMs = 5000`, `value = 5`, and a
custom counter `water` at value 7 (mirrored in persistent storage by the
write-through policy). -/
def exampleTransitionWorld : UserWorld :=
  { state :=
    { date := "2024-01-01"
      previousBedtime := "23:00"
      wakeTime := "07:00"
      customFields := [{ id := 10, key := "mood", value := "great" }]
      dailyCustomFields := [{ id := 11, key := "note", value := "one-off" }]
      dailyTasks := [{ id := 12, text := "buy milk", completed := false }]
      customCounters := [{ id := 3, name := "water", value := 7 }]
      entries := [{ id := 13, timestamp := "09:00:00", text := "hello", image := none }]
      timeSinceTrackers := [{ id := 4, name := "quit", date := "2023-01-01" }]
      durationTrackers :=
        [{ id := 5, name := "work", type := "timer", value := 5, isRunning := false,
           startTime := none, elapsedMs := 5000 }] }
    customFieldTemplates := [{ id := 10, key := "mood" }]
    persistentTrackers :=
      { timeSinceTrackers := [{ id := 4, name := "quit", date := "2023-01-01" }]
        durationTrackers :=
          [{ id := 5, name := "work", type := "timer", value := 5, isRunning := false,
             startTime := none, elapsedMs := 5000 }]
        customCounters := [{ id := 3, name := "water", value := 7 }] }
    historicalData := []
    snapshotSettings := { maxDays := 30, maxCount := 100 }
    nextId := 20 }

/-- `exampleTransitionWorld` with retention disabled (both limits 0). -/
def exampleArchiveWorld : UserWorld :=
  { exampleTransitionWorld with snapshotSettings := { maxDays := 0, maxCount := 0 } }

/-- A base64 payload of 28,000,000 characters: its implied decoded size
`3 * length / 4 = 21,000,000` bytes exceeds the 20MB limit. -/
def bigImage : String := String.mk (List.replicate 28000000 'a')

/-! ## Order properties of the JS string comparison -/

theorem charListLtb_asymm : ∀ (x y : List Char),
    charListLtb x y = true → charListLtb y x = false
  | [], [] => by simp [charListLtb]
  | [], _ :: _ => by simp [charListLtb]
  | _ :: _, [] => by simp [charListLtb]
  | a :: as, b :: bs => by
    simp only [charListLtb]
    by_cases h1 : a.toNat < b.toNat
    · intro _
      rw [if_neg (by omega), if_pos h1]
    · by_cases h2 : b.toNat < a.toNat
      · simp [h1, h2]
      · intro h
        rw [if_neg h2, if_neg h1] at h ⊢
        exact charListLtb_asymm as bs h

theorem charListLtb_trans : ∀ (x y z : List Char),
    charListLtb x y = true → charListLtb y z = true → charListLtb x z = true
  | _, [], _ => by simp [charListLtb]
  | _, _ :: _, [] => by simp [charListLtb]
  | [], _ :: _, _ :: _ => by simp [charListLtb]
  | a :: as, b :: bs, c :: cs => by
    intro h1 h2
    simp only [charListLtb] at h1 h2 ⊢
    by_cases hab : a.toNat < b.toNat
    · by_cases hbc : b.toNat < c.toNat
      · rw [if_pos (by omega)]
      · by_cases hcb : c.toNat < b.toNat
        · rw [if_neg hbc, if_pos hcb] at h2
          exact absurd h2 (by simp)
        · rw [if_pos (by omega)]
    · by_cases hba : b.toNat < a.toNat
      · rw [if_neg hab, if_pos hba] at h1
        exact absurd h1 (by simp)
      · rw [if_neg hab, if_neg hba] at h1
        by_cases hbc : b.toNat < c.toNat
        · rw [if_pos (by omega)]
        · by_cases hcb : c.toNat < b.toNat
          · rw [if_neg hbc, if_pos hcb] at h2
            exact absurd h2 (by simp)
          · rw [if_neg hbc, if_neg hcb] at h2
            rw [if_neg (by omega), if_neg (by omega)]
            exact charListLtb_trans as bs cs h1 h2

theorem charListLtb_conn : ∀ (x y : List Char),
    charListLtb x y = false → charListLtb y x = false → x = y
  | [], [] => fun _ _ => rfl
  | [], _ :: _ => by simp [charListLtb]
  | _ :: _, [] => by simp [charListLtb]
  | a :: as, b :: bs => by
    simp only [charListLtb]
    by_cases h1 : a.toNat < b.toNat
    · simp [h1]
    · by_cases h2 : b.toNat < a.toNat
      · simp [h1, h2]
      · rw [if_neg h1, if_neg h2, if_neg (by omega), if_neg (by omega)]
        intro ha hb
        have hn : a.toNat = b.toNat := by omega
        have hc : a = b := Char.eq_of_val_eq (UInt32.toNat.inj hn)
        rw [hc, charListLtb_conn as bs ha hb]

theorem strLe_iff (a b : String) : strLe a b ↔ charListLtb b.data a.data = false := by
  unfold strLe jsLeb jsLtb
  cases h : charListLtb b.data a.data <;> simp [h]

instance : IsTotal String strLe :=
  ⟨fun a b => by
    rw [strLe_iff, strLe_iff]
    cases h : charListLtb b.data a.data
    · exact Or.inl rfl
    · exact Or.inr (charListLtb_asymm _ _ h)⟩

instance : IsTrans String strLe :=
  ⟨fun a b c hab hbc => by
    rw [strLe_iff] at hab hbc ⊢
    cases hbc' : charListLtb b.data c.data
    · have : b.data = c.data := charListLtb_conn _ _ hbc' hbc
      rw [← this]
      exact hab
    · cases hca : charListLtb c.data a.data
      · rfl
      · exact absurd (charListLtb_trans _ _ _ hbc' hca) (by simp [hab])⟩

/-! ## Helper lemmas about the snapshot store and list operations -/

theorem lookupSnapshot_insertSnapshot_self :
    ∀ (h : List (String × DayState)) (d : String) (s : DayState),
      lookupSnapshot (insertSnapshot h d s) d = some s
  | [], d, s => by simp [insertSnapshot, lookupSnapshot]
  | (k, v) :: rest, d, s => by
    by_cases hk : k = d
    · simp [insertSnapshot, lookupSnapshot, hk]
    · simp [insertSnapshot, lookupSnapshot, hk,
        lookupSnapshot_insertSnapshot_self rest d s]

theorem lookupSnapshot_insertSnapshot_ne :
    ∀ (h : List (String × DayState)) (d : String) (s : DayState) (d' : String),
      d' ≠ d → lookupSnapshot (insertSnapshot h d s) d' = lookupSnapshot h d'
  | [], d, s, d', hne => by simp [insertSnapshot, lookupSnapshot, hne, Ne.symm hne]
  | (k, v) :: rest, d, s, d', hne => by
    by_cases hk : k = d
    · subst hk
      simp [insertSnapshot, lookupSnapshot, hne, Ne.symm hne]
    · by_cases hk' : k = d'
      · simp [insertSnapshot, lookupSnapshot, hne, hk, hk']
      · simp [insertSnapshot, lookupSnapshot, hk, hk', Ne.symm hk',
          lookupSnapshot_insertSnapshot_ne rest d s d' hne]

theorem jsMutateFirst_eq_self {α : Type} (p : α → Bool) (f : α → α) :
    ∀ (l : List α), (∀ x ∈ l, p x = true → f x = x) → jsMutateFirst p f l = l
  | [], _ => rfl
  | x :: xs, h => by
    unfold jsMutateFirst
    by_cases hp : p x = true
    · rw [if_pos hp, h x (by simp) hp]
    · rw [if_neg hp, jsMutateFirst_eq_self p f xs (fun y hy hpy => h y (by simp [hy]) hpy)]

theorem map_fst_filter (q : String → Bool) :
    ∀ (l : List (String × DayState)),
      (l.filter (fun p => q p.1)).map Prod.fst = (l.map Prod.fst).filter q
  | [] => rfl
  | x :: xs => by
    by_cases hq : q x.1 = true <;>
      simp [List.filter_cons, hq, map_fst_filter q xs]

theorem mem_sortAsc (l : List String) (d : String) : d ∈ sortAsc l ↔ d ∈ l :=
  (List.perm_insertionSort strLe l).mem_iff

theorem mem_sortDesc (l : List String) (d : String) : d ∈ sortDesc l ↔ d ∈ l := by
  rw [sortDesc, List.mem_reverse, mem_sortAsc]

theorem nodup_sortDesc (l : List String) (h : l.Nodup) : (sortDesc l).Nodup := by
  rw [sortDesc, List.nodup_reverse]
  exact ((List.perm_insertionSort strLe l).nodup_iff).mpr h

theorem length_sortDesc (l : List String) : (sortDesc l).length = l.length := by
  rw [sortDesc, List.length_reverse]
  exact (List.perm_insertionSort strLe l).length_eq

theorem mem_take_iff_of_nodup {l : List String} (hnd : l.Nodup) (k : Nat) (d : String) :
    d ∈ l.take k ↔ d ∈ l ∧ d ∉ l.drop k := by
  constructor
  · intro h
    exact ⟨List.take_subset k l h, fun hd => (List.disjoint_take_drop hnd (le_refl k)) h hd⟩
  · rintro ⟨h1, h2⟩
    rw [← List.take_append_drop k l, List.mem_append] at h1
    exact h1.resolve_right h2

theorem cleanupOldSnapshots_inactive (w : UserWorld) (c : String)
    (h1 : w.snapshotSettings.maxDays ≤ 0) (h2 : w.snapshotSettings.maxCount ≤ 0) :
    cleanupOldSnapshots w c = w := by
  have hA : ¬ 0 < w.snapshotSettings.maxDays := not_lt.mpr h1
  have hB : ∀ (n : Int),
      ¬ (0 < w.snapshotSettings.maxCount ∧ w.snapshotSettings.maxCount < n) := by
    rintro n ⟨hc, _⟩
    exact absurd hc (not_lt.mpr h2)
  simp only [cleanupOldSnapshots, if_neg hA, if_neg (hB _)]

theorem saveDailySnapshot_customFieldTemplates (w : UserWorld) (c : String) :
    (saveDailySnapshot w c).customFieldTemplates = w.customFieldTemplates := rfl

theorem saveDailySnapshot_persistentTrackers (w : UserWorld) (c : String) :
    (saveDailySnapshot w c).persistentTrackers = w.persistentTrackers := rfl

theorem saveDailySnapshot_state (w : UserWorld) (c : String) :
    (saveDailySnapshot w c).state = w.state := rfl

theorem saveDailySnapshot_snapshotSettings (w : UserWorld) (c : String) :
    (saveDailySnapshot w c).snapshotSettings = w.snapshotSettings := rfl

theorem checkDateTransition_noop (w : UserWorld) (d c : String)
    (h : w.state.date = d) : checkDateTransition w d c = w := by
  unfold checkDateTransition
  simp [h]

theorem checkDateTransition_date (w : UserWorld) (d c : String) :
    (checkDateTransition w d c).state.date = d := by
  unfold checkDateTransition
  by_cases h : w.state.date = d
  · simp [h]
  · simp [h, loadTrackersIntoState]

/-- Claim C2: calling `checkDateTransition` a second time with the same
current calendar date (and any retention cutoff) is a no-op: no extra
archival, no change to the active day state or any other per-user state. -/
theorem checkDateTransition_idempotent (w : UserWorld) (currentDate c1 c2 : String) :
    checkDateTransition (checkDateTransition w currentDate c1) currentDate c2
      = checkDateTransition w currentDate c1 :=
  checkDateTransition_noop _ _ _ (checkDateTransition_date w currentDate c1)

/-- Claim C1: when `checkDateTransition` observes a stale date, the
resulting active day state is on the new date with empty sleep times,
template fields regenerated (same id and key, empty value) from the
user's templates, empty one-off fields, tasks and entries, every
persistent counter present with value 0, and the time-since and duration
trackers exactly the pre-transition persistent tracker values. -/
theorem checkDateTransition_resets (w : UserWorld) (currentDate cutoffStr : String)
    (h : w.state.date ≠ currentDate) :
    (checkDateTransition w currentDate cutoffStr).state.date = currentDate
    ∧ (checkDateTransition w currentDate cutoffStr).state.previousBedtime = ""
    ∧ (checkDateTransition w currentDate cutoffStr).state.wakeTime = ""
    ∧ (checkDateTransition w currentDate cutoffStr).state.customFields
        = w.customFieldTemplates.map (fun t => { id := t.id, key := t.key, value := "" })
    ∧ (checkDateTransition w currentDate cutoffStr).state.dailyCustomFields = []
    ∧ (checkDateTransition w currentDate cutoffStr).state.dailyTasks = []
    ∧ (checkDateTransition w currentDate cutoffStr).state.entries = []
    ∧ (checkDateTransition w currentDate cutoffStr).state.customCounters
        = w.persistentTrackers.customCounters.map (fun c => { c with value := 0 })
    ∧ (checkDateTransition w currentDate cutoffStr).state.timeSinceTrackers
        = w.persistentTrackers.timeSinceTrackers
    ∧ (checkDateTransition w currentDate cutoffStr).state.durationTrackers
        = w.persistentTrackers.durationTrackers := by
  unfold checkDateTransition
  simp [h, loadTrackersIntoState, saveDailySnapshot_customFieldTemplates,
    saveDailySnapshot_persistentTrackers]

/-- Witness for C1 at the spec's example data: a stopped 5-second timer
and a `water` counter at 7 before the transition; afterwards the timer is
unchanged and the counter is regenerated at 0 with the same name. -/
theorem checkDateTransition_resets_witness :
    exampleTransitionWorld.state.date ≠ "2024-01-02"
    ∧ ((checkDateTransition exampleTransitionWorld "2024-01-02" "2023-12-03").state.customCounters
        = [{ id := 3, name := "water", value := 0 }]
      ∧ (checkDateTransition exampleTransitionWorld "2024-01-02" "2023-12-03").state.durationTrackers
        = [{ id := 5, name := "work", type := "timer", value := 5, isRunning := false,
             startTime := none, elapsedMs := 5000 }]
      ∧ (checkDateTransition exampleTransitionWorld "2024-01-02" "2023-12-03").state.customFields
        = [{ id := 10, key := "mood", value := "" }]) := by
  have h := checkDateTransition_resets exampleTransitionWorld "2024-01-02" "2023-12-03"
    (by decide)
  exact ⟨by decide, by rw [h.2.2.2.2.2.2.2.1]; decide,
    by rw [h.2.2.2.2.2.2.2.2.2]; decide, by rw [h.2.2.2.1]; decide⟩

/-- Claim C3: archiving stores an independent copy keyed by date — the
archived snapshot equals the state at the moment of archival, snapshots
under other dates are untouched (so re-archiving a date overwrites
exactly that date's snapshot), and none of the later mutating operations
on the active day state or the trackers ever touches the archive.
The retention limits are disabled so the cleanup pass that follows every
archival keeps the fresh snapshot. -/
theorem saveDailySnapshot_deep_copy (w : UserWorld) (cutoffStr : String)
    (hage : w.snapshotSettings.maxDays ≤ 0) (hcount : w.snapshotSettings.maxCount ≤ 0) :
    lookupSnapshot (saveDailySnapshot w cutoffStr).historicalData w.state.date
      = some w.state
    ∧ (∀ d, d ≠ w.state.date →
        lookupSnapshot (saveDailySnapshot w cutoffStr).historicalData d
          = lookupSnapshot w.historicalData d)
    ∧ (∀ (w2 : UserWorld) (id : Nat) (nowMs : Int),
        (startTimer w2 id nowMs).1.historicalData = w2.historicalData)
    ∧ (∀ (w2 : UserWorld) (id : Nat) (nowMs : Int),
        (stopTimer w2 id nowMs).1.historicalData = w2.historicalData)
    ∧ (∀ (w2 : UserWorld) (id : Nat),
        (resetTimer w2 id).1.historicalData = w2.historicalData)
    ∧ (∀ (w2 : UserWorld) (id : Nat),
        (incrementCounter w2 id).1.historicalData = w2.historicalData)
    ∧ (∀ (w2 : UserWorld) (id : Nat),
        (decrementCounter w2 id).1.historicalData = w2.historicalData)
    ∧ (∀ (w2 : UserWorld) (id : Nat) (v : Int),
        (setCounterValue w2 id v).1.historicalData = w2.historicalData)
    ∧ (∀ (w2 : UserWorld) (text : String) (image : Option String) (ts : String),
        (addEntry w2 text image ts).1.historicalData = w2.historicalData)
    ∧ (∀ (w2 : UserWorld) (pb wt : Option String),
        (updateDaily w2 pb wt).1.historicalData = w2.historicalData) := by
  have hclean :
      saveDailySnapshot w cutoffStr
        = { w with historicalData := insertSnapshot w.historicalData w.state.date w.state } := by
    unfold saveDailySnapshot
    exact cleanupOldSnapshots_inactive _ _ hage hcount
  refine ⟨?_, ?_, ?_, ?_, ?_, ?_, ?_, ?_, ?_, ?_⟩
  · rw [hclean]
    exact lookupSnapshot_insertSnapshot_self _ _ _
  · intro d hd
    rw [hclean]
    exact lookupSnapshot_insertSnapshot_ne _ _ _ _ hd
  · intro w2 id nowMs; rfl
  · intro w2 id nowMs; rfl
  · intro w2 id; rfl
  · intro w2 id; rfl
  · intro w2 id; rfl
  · intro w2 id v; rfl
  · intro w2 text image ts
    unfold addEntry
    split <;> rfl
  · intro w2 pb wt; rfl

/-- Witness for C3: archiving the populated example world (retention
disabled) stores today's state under its date, and a subsequent counter
increment leaves the archive untouched. -/
theorem saveDailySnapshot_deep_copy_witness :
    exampleArchiveWorld.snapshotSettings.maxDays ≤ 0
    ∧ exampleArchiveWorld.snapshotSettings.maxCount ≤ 0
    ∧ lookupSnapshot (saveDailySnapshot exampleArchiveWorld "2023-12-03").historicalData
        exampleArchiveWorld.state.date = some exampleArchiveWorld.state
    ∧ (incrementCounter (saveDailySnapshot exampleArchiveWorld "2023-12-03") 3).1.historicalData
        = (saveDailySnapshot exampleArchiveWorld "2023-12-03").historicalData := by
  have h := saveDailySnapshot_deep_copy exampleArchiveWorld "2023-12-03"
    (by decide) (by decide)
  exact ⟨by decide, by decide, h.1, h.2.2.2.2.2.1 _ 3⟩

/-- Claim C10: the timer start/stop/reset and counter
increment/decrement/set handlers, given an id that matches no duration
tracker of type `timer` (resp. no custom counter), respond 200 with the
unchanged day state instead of a NotFound error. -/
theorem trackerOps_missing_id (w : UserWorld) (id : Nat) (nowMs v : Int) :
    ((∀ t ∈ w.state.durationTrackers, t.id = id → ¬ t.type = "timer") →
      (startTimer w id nowMs).1.state = w.state
      ∧ (startTimer w id nowMs).2 = Except.ok w.state
      ∧ (stopTimer w id nowMs).1.state = w.state
      ∧ (stopTimer w id nowMs).2 = Except.ok w.state
      ∧ (resetTimer w id).1.state = w.state
      ∧ (resetTimer w id).2 = Except.ok w.state)
    ∧ ((∀ c ∈ w.state.customCounters, ¬ c.id = id) →
      (incrementCounter w id).1.state = w.state
      ∧ (incrementCounter w id).2 = Except.ok w.state
      ∧ (decrementCounter w id).1.state = w.state
      ∧ (decrementCounter w id).2 = Except.ok w.state
      ∧ (setCounterValue w id v).1.state = w.state
      ∧ (setCounterValue w id v).2 = Except.ok w.state) := by
  constructor
  · intro h
    have hstart : jsMutateFirst (fun t => decide (t.id = id))
        (fun t =>
          if t.type = "timer" then { t with isRunning := true, startTime := some nowMs }
          else t)
        w.state.durationTrackers = w.state.durationTrackers :=
      jsMutateFirst_eq_self _ _ _
        (fun t ht hpt => if_neg (h t ht (of_decide_eq_true hpt)))
    have hstop : jsMutateFirst (fun t => decide (t.id = id))
        (fun t =>
          if t.type = "timer" ∧ t.isRunning = true then
            let elapsedMs' := t.elapsedMs + (nowMs - t.startTime.getD 0)
            { t with elapsedMs := elapsedMs', value := elapsedMs'.fdiv 1000,
                     isRunning := false, startTime := none }
          else t)
        w.state.durationTrackers = w.state.durationTrackers :=
      jsMutateFirst_eq_self _ _ _
        (fun t ht hpt => if_neg (fun hc => h t ht (of_decide_eq_true hpt) hc.1))
    have hreset : jsMutateFirst (fun t => decide (t.id = id))
        (fun t =>
          if t.type = "timer" then
            { t with value := 0, isRunning := false, startTime := none, elapsedMs := 0 }
          else t)
        w.state.durationTrackers = w.state.durationTrackers :=
      jsMutateFirst_eq_self _ _ _
        (fun t ht hpt => if_neg (h t ht (of_decide_eq_true hpt)))
    simp only [startTimer, stopTimer, resetTimer, hstart, hstop, hreset]
    refine ⟨?_, ?_, ?_, ?_, ?_, ?_⟩ <;> first | rfl | trivial
  · intro h
    have hkeep : ∀ (f : CustomCounter → CustomCounter),
        jsMutateFirst (fun c => decide (c.id = id)) f w.state.customCounters
          = w.state.customCounters := by
      intro f
      exact jsMutateFirst_eq_self _ _ _
        (fun c hc hpc => absurd (of_decide_eq_true hpc) (h c hc))
    simp only [incrementCounter, decrementCounter, setCounterValue, hkeep]
    refine ⟨?_, ?_, ?_, ?_, ?_, ?_⟩ <;> first | rfl | trivial

/-- Witness for C10: id 99 matches neither the timer (id 5) nor the
counter (id 3) of the example world; all six operations answer with the
unchanged day state. -/
theorem trackerOps_missing_id_witness :
    (∀ t ∈ exampleTransitionWorld.state.durationTrackers, t.id = 99 → ¬ t.type = "timer")
      = False
    ∨ ((startTimer exampleTransitionWorld 99 1000).1.state = exampleTransitionWorld.state
      ∧ (incrementCounter exampleTransitionWorld 99).1.state = exampleTransitionWorld.state
      ∧ (setCounterValue exampleTransitionWorld 99 4).2
          = Except.ok exampleTransitionWorld.state) := by
  have h := trackerOps_missing_id exampleTransitionWorld 99 1000 4
  have h1 := h.1 (by decide)
  have h2 := h.2 (by decide)
  exact Or.inr ⟨h1.1, h2.1, h2.2.2.2.2.2⟩

/-- Claim C6: an entry whose attached encoded image implies a decoded
size over 20MB (`3 * base64Length > 4 * 20MB`) is rejected with a
validation error and the world — in particular the entries list — is left
untouched; an accepted entry is appended at the end of `entries`,
carrying the server-generated timestamp. -/
theorem addEntry_size_limit (w : UserWorld) (text : String) (img : String)
    (imgOpt : Option String) (ts : String) :
    (4 * (20 * 1024 * 1024) < 3 * img.length →
      addEntry w text (some img) ts = (w, Except.error ApiError.payloadTooLarge))
    ∧ (¬ (jsTruthyStr imgOpt = true ∧ 4 * (20 * 1024 * 1024) < 3 * (imgOpt.getD "").length) →
      (addEntry w text imgOpt ts).1.state.entries
        = w.state.entries
          ++ [{ id := w.nextId, timestamp := ts, text := text,
                image := if jsTruthyStr imgOpt then imgOpt else none }]
      ∧ (addEntry w text imgOpt ts).2 = Except.ok (addEntry w text imgOpt ts).1.state) := by
  constructor
  · intro hbig
    have hne : ¬ img = "" := by
      intro he
      rw [he] at hbig
      simp [String.length] at hbig
    have htruthy : jsTruthyStr (some img) = true := by
      simp [jsTruthyStr, hne]
    unfold addEntry
    rw [if_pos ⟨htruthy, hbig⟩]
  · intro hsmall
    unfold addEntry
    rw [if_neg hsmall]
    exact ⟨rfl, rfl⟩

/-- Witness for C6: a 28,000,000-character payload (implied decoded size
21MB) is rejected leaving the world unchanged; a small image is appended
as the last entry. -/
theorem addEntry_size_limit_witness :
    addEntry exampleTransitionWorld "too big" (some bigImage) "10:00:00"
      = (exampleTransitionWorld, Except.error ApiError.payloadTooLarge)
    ∧ (addEntry exampleTransitionWorld "ok" (some "abcd") "10:00:00").1.state.entries
      = exampleTransitionWorld.state.entries
        ++ [{ id := exampleTransitionWorld.nextId, timestamp := "10:00:00", text := "ok",
              image := if jsTruthyStr (some "abcd") then some "abcd" else none }] := by
  have hlen : bigImage.length = 28000000 := by
    have h1 : bigImage.length = (List.replicate 28000000 'a').length := rfl
    rw [h1, List.length_replicate]
  refine ⟨(addEntry_size_limit exampleTransitionWorld "too big" bigImage
      (some bigImage) "10:00:00").1 (by rw [hlen]; norm_num), ?_⟩
  have h := (addEntry_size_limit exampleTransitionWorld "ok" "" (some "abcd") "10:00:00").2
    (by decide)
  exact h.1

/-- Claim C5: the range download selects exactly the archived dates with
`startDate <= date <= endDate` (inclusive, JS string comparison on the
zero-padded ISO dates), renders them in ascending date order, answers
NotFound exactly when no snapshot falls in the range, and never mutates
the per-user state; on the 01-05/01-07/01-10 example with range
01-06..01-10 the selected dates are exactly 01-07 then 01-10. -/
theorem downloadRange_selection (env : RenderEnv) (w : UserWorld)
    (username : Option String) (profile : List (String × String)) (s e : String) :
    List.Sorted strLe (exportRangeDates w s e)
    ∧ (∀ d, d ∈ exportRangeDates w s e
        ↔ d ∈ w.historicalData.map Prod.fst ∧ strLe s d ∧ strLe d e)
    ∧ ((downloadRange env w username profile s e).2 = Except.error ApiError.notFound
        ↔ exportRangeDates w s e = [])
    ∧ (downloadRange env w username profile s e).1 = w
    ∧ exportRangeDates exampleRangeWorld "2024-01-06" "2024-01-10"
        = ["2024-01-07", "2024-01-10"] := by
  refine ⟨?_, ?_, ?_, ?_, ?_⟩
  · exact List.sorted_insertionSort strLe _
  · intro d
    unfold exportRangeDates sortAsc
    rw [(List.perm_insertionSort strLe _).mem_iff, List.mem_filter]
    simp [strLe, Bool.and_eq_true]
  · unfold downloadRange
    by_cases hE : (exportRangeDates w s e).isEmpty = true
    · simp [hE, List.isEmpty_iff.mp hE]
    · simp [hE]
      intro hnil
      exact hE (by simp [hnil])
  · unfold downloadRange
    by_cases hE : (exportRangeDates w s e).isEmpty = true
    · simp [hE]
    · simp [hE]
  · decide

/-- Witness for C5 at the example world: the theorem instantiated at
concrete inputs, giving the concrete selection, the NotFound equivalence
and the unchanged world. -/
theorem downloadRange_selection_witness :
    exportRangeDates exampleRangeWorld "2024-01-06" "2024-01-10"
      = ["2024-01-07", "2024-01-10"]
    ∧ (downloadRange env0 exampleRangeWorld none [] "2024-01-06" "2024-01-10").1
      = exampleRangeWorld
    ∧ ("2024-01-07" ∈ exportRangeDates exampleRangeWorld "2024-01-06" "2024-01-10"
        ↔ "2024-01-07" ∈ exampleRangeWorld.historicalData.map Prod.fst
          ∧ strLe "2024-01-06" "2024-01-07" ∧ strLe "2024-01-07" "2024-01-10") := by
  have h := downloadRange_selection env0 exampleRangeWorld none [] "2024-01-06" "2024-01-10"
  exact ⟨h.2.2.2.2, h.2.2.2.1, h.2.1 "2024-01-07"⟩

instance {e a : Type} [DecidableEq e] [DecidableEq a] : DecidableEq (Except e a) := fun x y =>
  match x, y with
  | .ok u, .ok v => decidable_of_iff (u = v) (by simp)
  | .error u, .error v => decidable_of_iff (u = v) (by simp)
  | .ok _, .error _ => isFalse (fun h => by cases h)
  | .error _, .ok _ => isFalse (fun h => by cases h)

/-- Counterexample for C8: with a single archived day 2024-01-07 and the
requested range 2024-01-06..2024-01-10 (exactly one match), the
attachment filename is built from the requested start date, 2024-01-06,
not from the matching day's date 2024-01-07. -/
theorem rangeFilename_uses_startDate :
    downloadRangePdfFilename exampleSingleSnapshotWorld "2024-01-06" "2024-01-10"
      = Except.ok "2024-01-06.pdf"
    ∧ ¬ downloadRangePdfFilename exampleSingleSnapshotWorld "2024-01-06" "2024-01-10"
      = Except.ok "2024-01-07.pdf" := by
  constructor
  · decide
  · decide

/-- Claim C8 as amended: for a range matching exactly one archived day
the filename is `{startDate}.{ext}` — the requested range's start date,
not the matching day's date — and for two or more matches it is
`{startDate}_to_{endDate}.{ext}`, for both the markdown and the PDF
range downloads. -/
theorem rangeFilename_amended (env : RenderEnv) (w : UserWorld)
    (username : Option String) (profile : List (String × String)) (s e : String) :
    ((exportRangeDates w s e).length = 1 →
      (downloadRange env w username profile s e).2.map Prod.fst = Except.ok (s ++ ".md")
      ∧ downloadRangePdfFilename w s e = Except.ok (s ++ ".pdf"))
    ∧ (2 ≤ (exportRangeDates w s e).length →
      (downloadRange env w username profile s e).2.map Prod.fst
        = Except.ok (s ++ "_to_" ++ e ++ ".md")
      ∧ downloadRangePdfFilename w s e = Except.ok (s ++ "_to_" ++ e ++ ".pdf")) := by
  constructor
  · intro h1
    have hne : ¬ (exportRangeDates w s e).isEmpty = true := by
      rw [List.isEmpty_iff]
      intro hnil
      rw [hnil] at h1
      simp at h1
    unfold downloadRange downloadRangePdfFilename
    simp [hne, h1, Except.map]
  · intro h2
    have hne : ¬ (exportRangeDates w s e).isEmpty = true := by
      rw [List.isEmpty_iff]
      intro hnil
      rw [hnil] at h2
      simp at h2
    have hone : ¬ (exportRangeDates w s e).length = 1 := by omega
    unfold downloadRange downloadRangePdfFilename
    simp [hne, hone, Except.map]

/-- Witness for the amended C8 at two concrete worlds: the single-match
example yields `2024-01-06.md` / `2024-01-06.pdf`, the two-match example
yields `2024-01-06_to_2024-01-10.md` / `.pdf`. -/
theorem rangeFilename_amended_witness :
    ((downloadRange env0 exampleSingleSnapshotWorld none [] "2024-01-06" "2024-01-10").2.map
        Prod.fst = Except.ok ("2024-01-06" ++ ".md")
      ∧ downloadRangePdfFilename exampleSingleSnapshotWorld "2024-01-06" "2024-01-10"
        = Except.ok ("2024-01-06" ++ ".pdf"))
    ∧ ((downloadRange env0 exampleRangeWorld none [] "2024-01-06" "2024-01-10").2.map
        Prod.fst = Except.ok ("2024-01-06" ++ "_to_" ++ "2024-01-10" ++ ".md")
      ∧ downloadRangePdfFilename exampleRangeWorld "2024-01-06" "2024-01-10"
        = Except.ok ("2024-01-06" ++ "_to_" ++ "2024-01-10" ++ ".pdf")) :=
  ⟨(rangeFilename_amended env0 exampleSingleSnapshotWorld none [] "2024-01-06" "2024-01-10").1
      (by decide),
   (rangeFilename_amended env0 exampleRangeWorld none [] "2024-01-06" "2024-01-10").2
      (by decide)⟩

/-- Claim C9 (code bug exhibit): the structured-text renderer escapes
double quotes in profile values, tracker names, template/daily field
values and task texts, but the custom-counter section interpolates the
counter name verbatim: a counter named `a"b` is emitted as
`- name: "a"b"`, which differs from the escaped form the escaping rule
requires everywhere else. -/
theorem customCountersYaml_unescaped_name :
    customCountersYaml [{ id := 1, name := "a\"b", value := 0 }]
      = "# Custom Counters (persist but values reset daily)\ncustom_counters:\n  - name: \"a\"b\"\n    value: 0\n\n"
    ∧ ¬ escapeQuotes "a\"b" = "a\"b"
    ∧ tasksYaml [{ id := 1, text := "a\"b", completed := false }]
      = "# Daily Tasks\ntasks:\n  - text: \"a\\\"b\"\n    completed: false\n\n" := by
  refine ⟨by decide, by decide, by decide⟩

/-- Claim C4: with the age filter disabled (`maxDays = 0`) and a positive
`maxCount`, retention keeps exactly the `maxCount` newest snapshot dates
(members of the `maxCount`-prefix of the descending-sorted date list);
for ten snapshots 2024-01-01..2024-01-10 and `maxCount = 5` exactly
2024-01-06..2024-01-10 remain. -/
theorem cleanupOldSnapshots_count_filter (w : UserWorld) (cutoffStr : String)
    (hage : w.snapshotSettings.maxDays ≤ 0)
    (hcount : 0 < w.snapshotSettings.maxCount)
    (hnd : (w.historicalData.map Prod.fst).Nodup) :
    (∀ d, d ∈ (cleanupOldSnapshots w cutoffStr).historicalData.map Prod.fst
        ↔ d ∈ (sortDesc (w.historicalData.map Prod.fst)).take
            w.snapshotSettings.maxCount.toNat)
    ∧ (cleanupOldSnapshots exampleRetentionWorld "0000-00-00").historicalData.map Prod.fst
        = ["2024-01-06", "2024-01-07", "2024-01-08", "2024-01-09", "2024-01-10"] := by
  constructor
  · intro d
    have hA : ¬ 0 < w.snapshotSettings.maxDays := not_lt.mpr hage
    have hndD : (sortDesc (w.historicalData.map Prod.fst)).Nodup := nodup_sortDesc _ hnd
    simp only [cleanupOldSnapshots, if_neg hA]
    by_cases hg : w.snapshotSettings.maxCount
        < ((sortDesc (w.historicalData.map Prod.fst)).length : Int)
    · rw [if_pos ⟨hcount, hg⟩,
        map_fst_filter
          (fun x => !decide (x ∈ (sortDesc (w.historicalData.map Prod.fst)).drop
            w.snapshotSettings.maxCount.toNat)) w.historicalData,
        List.mem_filter, mem_take_iff_of_nodup hndD, ← mem_sortDesc]
      simp
    · rw [if_neg (fun hc => hg hc.2)]
      have hlen : (sortDesc (w.historicalData.map Prod.fst)).length
          ≤ w.snapshotSettings.maxCount.toNat := by omega
      rw [List.take_of_length_le hlen, mem_sortDesc]
  · decide

/-- Witness for C4: the theorem instantiated at the ten-snapshot example
world (its hypotheses hold by computation), specialised to the date
2024-01-06, which is a member of the five newest dates and survives. -/
theorem cleanupOldSnapshots_count_filter_witness :
    exampleRetentionWorld.snapshotSettings.maxDays ≤ 0
    ∧ 0 < exampleRetentionWorld.snapshotSettings.maxCount
    ∧ ("2024-01-06"
        ∈ (cleanupOldSnapshots exampleRetentionWorld "0000-00-00").historicalData.map Prod.fst
      ↔ "2024-01-06"
        ∈ (sortDesc (exampleRetentionWorld.historicalData.map Prod.fst)).take
            exampleRetentionWorld.snapshotSettings.maxCount.toNat) := by
  refine ⟨by decide, by decide, ?_⟩
  exact (cleanupOldSnapshots_count_filter exampleRetentionWorld "0000-00-00"
    (by decide) (by decide) (by decide)).1 "2024-01-06"

theorem timeSinceBreakdown_nonneg (m : Int) (hm : 0 ≤ m) :
    0 ≤ (timeSinceBreakdown m).years ∧ 0 ≤ (timeSinceBreakdown m).months
    ∧ 0 ≤ (timeSinceBreakdown m).weeks ∧ 0 ≤ (timeSinceBreakdown m).days
    ∧ 0 ≤ (timeSinceBreakdown m).hours := by
  have e1 : ∀ (a : Int), a.fdiv 525960 = a / 525960 :=
    fun a => Int.fdiv_eq_ediv a (by norm_num)
  have e2 : ∀ (a : Int), a.fdiv 1506111027727565 = a / 1506111027727565 :=
    fun a => Int.fdiv_eq_ediv a (by norm_num)
  have e3 : ∀ (a : Int), a.fdiv 34359738368 = a / 34359738368 :=
    fun a => Int.fdiv_eq_ediv a (by norm_num)
  have e4 : ∀ (a : Int), a.fdiv 10080 = a / 10080 :=
    fun a => Int.fdiv_eq_ediv a (by norm_num)
  have e5 : ∀ (a : Int), a.fdiv 1440 = a / 1440 :=
    fun a => Int.fdiv_eq_ediv a (by norm_num)
  have e6 : ∀ (a : Int), a.fdiv 60 = a / 60 :=
    fun a => Int.fdiv_eq_ediv a (by norm_num)
  simp only [timeSinceBreakdown, e1, e2, e3, e4, e5, e6]
  refine ⟨?_, ?_, ?_, ?_, ?_⟩ <;> omega

theorem timeSincePartsJoin_eq_spec (y mo w d h mi : Int)
    (hy : 0 ≤ y) (hmo : 0 ≤ mo) (hw : 0 ≤ w) (hd : 0 ≤ d) (hh : 0 ≤ h) :
    timeSincePartsJoin ⟨y, mo, w, d, h, mi⟩ = timeSinceSpecJoin ⟨y, mo, w, d, h, mi⟩ := by
  have ey : (y = 0) ↔ ¬ 0 < y := by omega
  have emo : (mo = 0) ↔ ¬ 0 < mo := by omega
  have ew : (w = 0) ↔ ¬ 0 < w := by omega
  have ed : (d = 0) ↔ ¬ 0 < d := by omega
  have eh : (h = 0) ↔ ¬ 0 < h := by omega
  simp only [timeSincePartsJoin, timeSinceSpecJoin, ey, emo, ew, ed, eh]
  clear ey emo ew ed eh
  rcases hy.lt_or_eq with hy' | hy' <;> rcases hmo.lt_or_eq with hmo' | hmo' <;>
    rcases hw.lt_or_eq with hw' | hw' <;> rcases hd.lt_or_eq with hd' | hd' <;>
    rcases hh.lt_or_eq with hh' | hh' <;>
    simp_all [joinWith]

/-- Claim C7: for any past reference timestamp and any fixed current
time (elapsed time under `2^53` ms, about 285,000 years — beyond that
the double subtraction `now - then` itself is inexact),
`calculateTimeSince` computes its string by the successive
floor-division breakdown (365.25-day year, the program's 30.44-day-month
double, weeks, days, hours, minutes, largest first, subtracting each
unit's floored contribution) formatted by the spec's omission rule —
zero-valued units omitted except minutes, which appears whenever all
larger units are zero.  At 400 elapsed days the result is
`1y 1mo 4d 7h 27m`; at exactly 219168 elapsed minutes — where the
double month constant differs observably from exact 43833.6 — it is
`4mo 4w 2d 10h 34m`, matching the program. -/
theorem calculateTimeSince_follows_spec (thenMs nowMs : Int) (hpast : thenMs ≤ nowMs)
    (hrange : nowMs - thenMs < 9007199254740992) :
    calculateTimeSinceMs thenMs nowMs
      = timeSinceSpecFromMinutes ((nowMs - thenMs).fdiv 60000)
    ∧ calculateTimeSinceMs 0 34560000000 = "1y 1mo 4d 7h 27m"
    ∧ calculateTimeSinceMs 0 13150080000 = "4mo 4w 2d 10h 34m" := by
  refine ⟨?_, by decide, by decide⟩
  have hm : 0 ≤ (nowMs - thenMs).fdiv 60000 :=
    Int.fdiv_nonneg (by omega) (by norm_num)
  have hb := timeSinceBreakdown_nonneg _ hm
  unfold calculateTimeSinceMs timeSinceFromMinutes timeSinceSpecFromMinutes
  exact timeSincePartsJoin_eq_spec _ _ _ _ _ _
    hb.1 hb.2.1 hb.2.2.1 hb.2.2.2.1 hb.2.2.2.2

/-- Witness for C7: the refinement applied at the concrete pair
(0, 34560000000 ms = 400 days), with both hand-computed strings. -/
theorem calculateTimeSince_follows_spec_witness :
    calculateTimeSinceMs 0 34560000000
      = timeSinceSpecFromMinutes (((34560000000 : Int) - 0).fdiv 60000)
    ∧ calculateTimeSinceMs 0 34560000000 = "1y 1mo 4d 7h 27m"
    ∧ calculateTimeSinceMs 0 13150080000 = "4mo 4w 2d 10h 34m" :=
  calculateTimeSince_follows_spec 0 34560000000 (by norm_num) (by norm_num)
